import Mathlib

/-!
Verification development for the BOOTCAMP repository (agent.py, api.py, app.py).

The Python sources are shallowly embedded below.  External collaborators
(the hosted model, the weather provider, the zone database, uuid generation)
are modelled as explicit parameters of the embedded functions, so every
function here is total and executable.  In strings, the escape \x27 is the
apostrophe character appearing in the source string literals.
-/

namespace Bootcamp

/-! ### Tool adapters (agent.py lines 32-70) -/

/-- A calendar date-time as handed back by the Python `datetime` library
(either `datetime.now(ZoneInfo("Asia/Kolkata"))` or
`datetime.utcnow() + timedelta(hours=5, minutes=30)`).  The conversion from
an instant to these fields is owned by the library; the repository only
formats the result. -/
structure PyDateTime where
  year : Nat
  month : Nat
  day : Nat
  hour : Nat
  minute : Nat
  second : Nat
deriving DecidableEq, Repr

/-- The decimal digit character of `n mod 10`. -/
def digitChar (n : Nat) : Char := Char.ofNat (48 + n % 10)

/-- Two-character zero-padded decimal rendering, as produced by the strftime
directives `%m %d %H %M %S` for in-range field values. -/
def pad2 (n : Nat) : List Char := [digitChar (n / 10), digitChar n]

/-- Four-character zero-padded decimal rendering, as produced by `%Y` for
years up to 9999 (the full range of Python `datetime`). -/
def pad4 (n : Nat) : List Char :=
  [digitChar (n / 1000), digitChar (n / 100), digitChar (n / 10), digitChar n]

/-- Model of `now.strftime("%Y-%m-%d %H:%M:%S (IST)")` (agent.py line 42). -/
def strftimeClock (dt : PyDateTime) : String :=
  String.mk (pad4 dt.year ++ '-' :: pad2 dt.month ++ '-' :: pad2 dt.day ++ ' ' ::
    pad2 dt.hour ++ ':' :: pad2 dt.minute ++ ':' :: pad2 dt.second ++
    [' ', '(', 'I', 'S', 'T', ')'])

/-- Outcome of evaluating `datetime.now(ZoneInfo("Asia/Kolkata"))`: either a
date-time, or an exception (for example the zone lookup failing) whose
`str` is carried. -/
inductive ZoneLookup where
  | ok (now : PyDateTime)
  | raises (msg : String)
deriving DecidableEq, Repr

/-- Whether the `zoneinfo` module imported (agent.py lines 26-30): when
that import failed, `ZoneInfo` is `None` and the UTC+5:30 offset
arithmetic is used instead. -/
inductive ZoneInfoStatus where
  | unavailable
  | available (lookup : ZoneLookup)
deriving DecidableEq, Repr

/-- Model of `get_current_datetime` (agent.py lines 32-44).  `utcOffsetNow`
is the date-time produced by `datetime.utcnow() + timedelta(hours=5,
minutes=30)` on the fallback branch. -/
def get_current_datetime (zs : ZoneInfoStatus) (utcOffsetNow : PyDateTime) : String :=
  match zs with
  | .available (.ok now) => strftimeClock now
  | .available (.raises msg) => "Error getting current time: " ++ msg
  | .unavailable => strftimeClock utcOffsetNow

/-- Decides whether a string has the literal shape
`YYYY-MM-DD HH:MM:SS (IST)`: 25 characters, digits in the date and time
positions, the fixed punctuation, and the fixed zone label. -/
def matchesClockPattern (s : String) : Bool :=
  match s.data with
  | [y1, y2, y3, y4, h1, mo1, mo2, h2, d1, d2, sp1, ho1, ho2, c1, mi1, mi2, c2, se1, se2,
      sp2, p1, z1, z2, z3, p2] =>
    ([y1, y2, y3, y4, mo1, mo2, d1, d2, ho1, ho2, mi1, mi2, se1, se2].all Char.isDigit)
      && h1 = '-' && h2 = '-' && sp1 = ' ' && c1 = ':' && c2 = ':' && sp2 = ' '
      && p1 = '(' && z1 = 'I' && z2 = 'S' && z3 = 'T' && p2 = ')'
  | _ => false

/-- The fields read out of the wttr.in JSON payload
(`data['current_condition'][0]`, agent.py lines 59-64). -/
structure WeatherPayload where
  weatherDesc : String
  temp_C : String
  feelsLikeC : String
  humidity : String
deriving DecidableEq, Repr

/-- Body of a provider response: either the expected JSON shape, or a body on
which the field accesses of lines 59-64 raise (the exception's `str` is
carried). -/
inductive WeatherBody where
  | wellFormed (p : WeatherPayload)
  | malformed (errMsg : String)
deriving DecidableEq, Repr

/-- Behavior of `requests.get` for one call: a response with a status code
and body, or a raised exception (timeout, connection error, ...). -/
inductive ProviderResult where
  | raises (msg : String)
  | responds (status : Nat) (body : WeatherBody)
deriving DecidableEq, Repr

/-- Model of `get_weather` (agent.py lines 46-70). -/
def get_weather (city : String) (pr : ProviderResult) : String :=
  match pr with
  | .raises msg => "Error getting weather: " ++ msg
  | .responds status body =>
    if status = 200 then
      match body with
      | .wellFormed p =>
        "Weather in " ++ city ++ ": " ++ p.weatherDesc ++ ", Temperature: " ++
          p.temp_C ++ "°C (feels like " ++ p.feelsLikeC ++ "°C), Humidity: " ++
          p.humidity ++ "%"
      | .malformed msg => "Error getting weather: " ++ msg
    else
      "Could not fetch weather for " ++ city

/-! ### The chat handler (agent.py lines 168-244) -/

/-- A role-tagged message object handed to the model
(`HumanMessage` / `AIMessage`). -/
inductive Msg where
  | human (content : String)
  | ai (content : String)
deriving DecidableEq, Repr

/-- The sentinel compared against at agent.py line 231. -/
def SENTINEL : String := "No response generated"

/-- The `output` field of a dict returned by `agent_executor.invoke`:
missing or falsy, a string, or a truthy non-string value. -/
inductive DictOutput where
  | falsy
  | strVal (s : String)
  | truthyNonStr
deriving DecidableEq, Repr

/-- Behavior of the external `agent_executor.invoke` call for one turn:
a raised exception (whose `str` is carried), `None`, a dict, a non-dict
object with a non-`None` `output` attribute (its `str` carried), or any
other non-`None` value (its `str` carried). -/
inductive InvokeBehavior where
  | raises (msg : String)
  | retNone
  | retDict (out : DictOutput)
  | retObjOutput (s : String)
  | retOther (s : String)
deriving DecidableEq, Repr

/-- The reply-extraction ladder of agent.py lines 208-228: maps what the
external call did to the `output` string as it stands after line 228. -/
def extractOutput : InvokeBehavior → String
  | .raises msg =>
    "I encountered an error: " ++ msg ++ ". Could you please rephrase your question?"
  | .retNone => "No response was generated. Please try again."
  | .retDict .falsy => "I didn\x27t get a proper response. Could you rephrase your question?"
  | .retDict (.strVal s) =>
    if s = "" then "I didn\x27t get a proper response. Could you rephrase your question?" else s
  | .retDict .truthyNonStr =>
    "I\x27m having trouble understanding. Could you rephrase your question?"
  | .retObjOutput s =>
    if s = "" then "I\x27m having trouble understanding. Could you rephrase your question?" else s
  | .retOther s =>
    if s = "" then "I\x27m having trouble understanding. Could you rephrase your question?" else s

/-- History formatting of agent.py lines 186-195: each `("human", c)` pair
becomes a `HumanMessage`, each `("assistant", c)` pair with non-empty
string content becomes an `AIMessage`, everything else is skipped. -/
def formatHistory (hist : List (String × String)) : List Msg :=
  hist.filterMap fun p =>
    if p.1 = "human" then some (Msg.human p.2)
    else if p.1 = "assistant" ∧ p.2 ≠ "" then some (Msg.ai p.2)
    else none

/-- What one call of `chat` (agent.py lines 168-244) produces: the
`chat_history` value placed into `input_data` for the external call, the
returned text, and the new value of the module-global `chat_history`. -/
structure ChatResult where
  modelInput : List Msg
  output : String
  newHistory : List (String × String)
deriving DecidableEq, Repr

/-- Model of `chat` (agent.py lines 168-244).  `hist` is the module-global
`chat_history` on entry (a list, so the `is None` re-initialisation at
lines 183-184 does not fire).  The outer `except` at lines 241-244 is
unreachable here because every failure source of the body is the
parameterised external call, already handled at lines 227-228. -/
def chat (user_input : String) (beh : InvokeBehavior) (hist : List (String × String)) :
    ChatResult :=
  let formatted := formatHistory hist
  let raw := extractOutput beh
  let hist1 :=
    if raw ≠ "" ∧ raw ≠ SENTINEL then
      hist ++ [("human", user_input), ("assistant", raw)]
    else hist
  let hist2 := if hist1.length > 20 then hist1.drop (hist1.length - 20) else hist1
  ⟨formatted,
   if raw = "" then "I\x27m not sure how to respond to that. Could you rephrase?" else raw,
   hist2⟩

/-- The pair of turns that one call records (empty when the guard of
agent.py line 231 rejects the output). -/
def recordedPair (user : String) (beh : InvokeBehavior) : List (String × String) :=
  let raw := extractOutput beh
  if raw ≠ "" ∧ raw ≠ SENTINEL then [("human", user), ("assistant", raw)] else []

/-- All turns recorded by a sequence of calls, before any truncation. -/
def recordedTurns : List (String × InvokeBehavior) → List (String × String)
  | [] => []
  | c :: rest => recordedPair c.1 c.2 ++ recordedTurns rest

/-- The module-global `chat_history` after running a sequence of calls from
the initial empty history. -/
def runChatCalls (calls : List (String × InvokeBehavior)) : List (String × String) :=
  calls.foldl (fun h c => (chat c.1 c.2 h).newHistory) []

/-! ### The HTTP layer (api.py) -/

/-- A session: an ordered list of (role, text) turns. -/
abbrev Session := List (String × String)

/-- The `session_storage` dict (api.py line 48), as an association list. -/
abbrev SessionStore := List (String × Session)

/-- Dict membership and indexing for the session storage. -/
def storeLookup : SessionStore → String → Option Session
  | [], _ => none
  | (k, v) :: rest, key => if k = key then some v else storeLookup rest key

/-- Dict assignment `session_storage[session_id] = v`. -/
def storeSet : SessionStore → String → Session → SessionStore
  | [], key, v => [(key, v)]
  | (k, w) :: rest, key, v =>
    if k = key then (k, v) :: rest else (k, w) :: storeSet rest key v

/-- Model of `get_or_create_session` (api.py lines 50-53): returns the
stored session for the key, inserting an empty one first when the key is
unseen.  Returns the (possibly updated) store alongside. -/
def get_or_create_session (store : SessionStore) (session_id : String) :
    Session × SessionStore :=
  match storeLookup store session_id with
  | some s => (s, store)
  | none => ([], store ++ [(session_id, [])])

/-- Models `str(uuid.uuid4())` (api.py lines 60-61): uuid4 draws are
modelled as an injective supply indexed by a per-process draw counter; the
library guarantee relied on is that successive draws are non-empty and
pairwise distinct strings. -/
def genSessionId (n : Nat) : String := String.mk ('s' :: List.replicate n 's')

/-- The parsed request envelope (api.py lines 35-37). -/
structure ChatRequest where
  message : String
  session_id : Option String
deriving DecidableEq, Repr

/-- The test `if not chat_request.session_id` (api.py line 59): true when
the field is absent or the empty string. -/
def wantsFresh (req : ChatRequest) : Bool :=
  match req.session_id with
  | none => true
  | some s => s = ""

/-- The process state seen by the HTTP layer: the module-global
`chat_history` of agent.py, the `session_storage` dict of api.py, and the
draw counter of the uuid supply. -/
structure ApiState where
  globalHistory : List (String × String)
  sessionStorage : SessionStore
  uuidCounter : Nat
deriving DecidableEq, Repr

/-- The session id resolved at api.py lines 58-63. -/
def resolveSessionId (st : ApiState) (req : ChatRequest) : String :=
  match req.session_id with
  | none => genSessionId st.uuidCounter
  | some s => if s = "" then genSessionId st.uuidCounter else s

/-- An element of an in-memory history as the serialization loop of api.py
lines 90-94 sees it: either a plain (role, text) tuple (which has no
`content` attribute) or a framework message object with `type` and
`content` attributes. -/
inductive SerItem where
  | tup (role : String) (text : String)
  | lcMsg (msgType : String) (content : String)
deriving DecidableEq, Repr

/-- `agent_executor.memory.chat_memory.messages` (api.py line 82): the
`ConversationBufferMemory` attached at api.py lines 30-33 is never written
to — `chat` in agent.py never touches `agent_executor.memory` — so this
list is empty for the whole process lifetime. -/
def memoryMessages : List SerItem := []

/-- api.py lines 79-94: take the memory messages, fall back to the current
session when they are empty, and keep only items with a `content`
attribute, tagging by the `type` attribute. -/
def serializedHistory (session : Session) : List (String × String) :=
  let updated :=
    if memoryMessages.isEmpty then session.map (fun t => SerItem.tup t.1 t.2)
    else memoryMessages
  updated.filterMap fun m =>
    match m with
    | .tup _ _ => none
    | .lcMsg ty content =>
      some (if ty = "ai" then ("assistant", content) else ("user", content))

/-- Behavior of the body of the inner `try` (api.py lines 69-102) for one
request: it either runs normally (with the external call behaving as
given) or some step in it raises. -/
inductive InnerBehavior where
  | normal (beh : InvokeBehavior)
  | raisesInner (msg : String)
deriving DecidableEq, Repr

/-- What the endpoint hands back to the HTTP framework: a normal (status
200) response envelope, or an `HTTPException` with status 500. -/
inductive HttpResult where
  | ok (response : String) (session_id : String)
  | serverError (detail : String)
deriving DecidableEq, Repr

/-- Result of one `POST /chat` request: the HTTP outcome, the new process
state, and (when the external call ran) the history that was handed to it. -/
structure EndpointResult where
  http : HttpResult
  state : ApiState
  invokedHistory : Option (List Msg)
deriving DecidableEq, Repr

/-- The fixed apology of api.py line 112 (identical to the one of agent.py
line 244). -/
def APOLOGY : String :=
  "I\x27m sorry, I encountered an error processing your request. Please try again."

/-- Model of `chat_endpoint` (api.py lines 55-116).  A failure inside the
inner `try` is modelled as raising before the call to `chat`; the outer
`except` (line 115-116, status 500) is unreachable here because session-id
resolution and `get_or_create_session` are total. -/
def chat_endpoint (st : ApiState) (req : ChatRequest) (ib : InnerBehavior) :
    EndpointResult :=
  let session_id := resolveSessionId st req
  let counter1 := if wantsFresh req then st.uuidCounter + 1 else st.uuidCounter
  let gc := get_or_create_session st.sessionStorage session_id
  match ib with
  | .raisesInner _ =>
    ⟨HttpResult.ok APOLOGY session_id, ⟨st.globalHistory, gc.2, counter1⟩, none⟩
  | .normal beh =>
    let r := chat req.message beh st.globalHistory
    let serialized := serializedHistory gc.1
    let storage2 := if serialized.isEmpty then gc.2 else storeSet gc.2 session_id serialized
    ⟨HttpResult.ok r.output session_id, ⟨r.newHistory, storage2, counter1⟩, some r.modelInput⟩

/-- The session ids freshly generated over a run of requests. -/
def genIdsRun : ApiState → List (ChatRequest × InnerBehavior) → List String
  | _, [] => []
  | st, (req, ib) :: rest =>
    (if wantsFresh req then [genSessionId st.uuidCounter] else [])
      ++ genIdsRun (chat_endpoint st req ib).state rest

/-! ### The console loop (agent.py lines 288-324) and the browser UI (app.py) -/

/-- The whitespace characters stripped by Python `str.strip()` (for ASCII
input). -/
def isPyWhitespace (c : Char) : Bool :=
  c = ' ' || c = '\t' || c = '\n' || c = '\r' || c = '\x0b' || c = '\x0c'

/-- Model of Python `str.strip()`: drop whitespace from both ends. -/
def pyStrip (s : String) : String :=
  String.mk (((s.data.dropWhile isPyWhitespace).reverse.dropWhile isPyWhitespace).reverse)

/-- What one iteration of the console loop decides to do with a raw input
line (agent.py lines 288-319). -/
inductive ConsoleAction where
  | quit
  | skip
  | showHistory
  | clearHistory
  | runChat (input : String)
deriving DecidableEq, Repr

/-- The dispatch of agent.py lines 290-319: strip, skip empty input, then
the literal commands, else treat the line as a chat message. -/
def consoleStep (rawLine : String) : ConsoleAction :=
  let u := pyStrip rawLine
  if u = "" then ConsoleAction.skip
  else if u.toLower = "quit" ∨ u.toLower = "exit" ∨ u.toLower = "q" then ConsoleAction.quit
  else if u.toLower = "history" then ConsoleAction.showHistory
  else if u.toLower = "clear" then ConsoleAction.clearHistory
  else ConsoleAction.runChat u

/-- Effect of one console action on the module-global history, together
with whether `chat` (and hence the external call) was invoked. -/
def consoleEffect (a : ConsoleAction) (beh : InvokeBehavior)
    (hist : List (String × String)) : List (String × String) × Bool :=
  match a with
  | .runChat u => ((chat u beh hist).newHistory, true)
  | .clearHistory => ([], false)
  | _ => (hist, false)

/-- A record of `st.session_state.messages` (app.py line 86; the wall-clock
timestamp field is not modelled). -/
structure UiMsg where
  role : String
  content : String
deriving DecidableEq, Repr

/-- Helper for app.py lines 190-194: walking from the end, replace the
content of the last message whose role is "assistant". -/
def replaceLastAssistantAux : List UiMsg → String → List UiMsg
  | [], _ => []
  | m :: rest, resp =>
    if m.role = "assistant" then ⟨m.role, resp⟩ :: rest
    else m :: replaceLastAssistantAux rest resp

/-- app.py lines 190-194: replace the last assistant bubble. -/
def replaceLastAssistant (msgs : List UiMsg) (resp : String) : List UiMsg :=
  (replaceLastAssistantAux msgs.reverse resp).reverse

/-- Model of one form submission of the browser UI (app.py lines 155-196):
the guard `if submit and user_input and user_input.strip():` and, when it
passes, append the user bubble and the "Thinking..." placeholder, call the
chat handler, and write its reply into the placeholder.  Returns the new
message list, the new module-global history, and whether the handler was
invoked. -/
def uiStep (submit : Bool) (raw : String) (beh : InvokeBehavior)
    (msgs : List UiMsg) (hist : List (String × String)) :
    List UiMsg × List (String × String) × Bool :=
  if submit ∧ raw ≠ "" ∧ pyStrip raw ≠ "" then
    let text := pyStrip raw
    let msgs1 := msgs ++ [⟨"user", text⟩, ⟨"assistant", "Thinking..."⟩]
    let r := chat text beh hist
    (replaceLastAssistant msgs1 r.output, r.newHistory, true)
  else (msgs, hist, false)

/-! ### Helper lemmas -/

theorem rtake_append_rtake {α : Type} (l p : List α) (n : Nat) :
    (List.rtake l n ++ p).rtake n = (l ++ p).rtake n := by
  rw [List.rtake_eq_reverse_take_reverse, List.rtake_eq_reverse_take_reverse,
    List.rtake_eq_reverse_take_reverse, List.reverse_append, List.reverse_reverse,
    List.reverse_append, List.take_append_eq_append_take, List.take_append_eq_append_take,
    List.take_take]
  congr 3
  exact Nat.min_eq_left (Nat.sub_le n _)

theorem rtake_of_length_le {α : Type} (l : List α) (n : Nat) (h : l.length ≤ n) :
    List.rtake l n = l := by
  unfold List.rtake
  have h0 : l.length - n = 0 := Nat.sub_eq_zero_of_le h
  rw [h0, List.drop_zero]

theorem length_rtake_le {α : Type} (l : List α) (n : Nat) : (List.rtake l n).length ≤ n := by
  unfold List.rtake
  rw [List.length_drop]
  omega

theorem rtake_suffix {α : Type} (l : List α) (n : Nat) : List.rtake l n <:+ l :=
  List.drop_suffix _ _

theorem string_append_ne_empty_left (s t : String) (hs : s.length ≠ 0) : s ++ t ≠ "" := by
  intro h
  have h2 := congrArg String.length h
  rw [String.length_append] at h2
  have h3 : String.length "" = 0 := rfl
  rw [h3] at h2
  omega

theorem extractOutput_ne (b : InvokeBehavior) : extractOutput b ≠ "" := by
  cases b with
  | raises msg =>
    show ("I encountered an error: " ++ msg) ++ ". Could you please rephrase your question?" ≠ ""
    intro h
    have h2 := congrArg String.length h
    rw [String.length_append, String.length_append] at h2
    have h3 : String.length "" = 0 := rfl
    have h4 : String.length "I encountered an error: " = 24 := by decide
    rw [h3, h4] at h2
    omega
  | retNone => simp [extractOutput]
  | retDict out =>
    cases out with
    | falsy => simp [extractOutput]
    | strVal s =>
      by_cases h : s = "" <;> simp [extractOutput, h]
    | truthyNonStr => simp [extractOutput]
  | retObjOutput s => by_cases h : s = "" <;> simp [extractOutput, h]
  | retOther s => by_cases h : s = "" <;> simp [extractOutput, h]

theorem chat_output_eq (u : String) (b : InvokeBehavior) (h : List (String × String)) :
    (chat u b h).output = extractOutput b := by
  simp [chat, extractOutput_ne b]

theorem chat_modelInput_eq (u : String) (b : InvokeBehavior) (h : List (String × String)) :
    (chat u b h).modelInput = formatHistory h := rfl

theorem truncate_eq_rtake {α : Type} (l : List α) :
    (if l.length > 20 then l.drop (l.length - 20) else l) = List.rtake l 20 := by
  by_cases h : l.length > 20
  · rw [if_pos h]; rfl
  · rw [if_neg h]
    exact (rtake_of_length_le l 20 (by omega)).symm

theorem chat_newHistory_eq (u : String) (b : InvokeBehavior) (h : List (String × String)) :
    (chat u b h).newHistory = (h ++ recordedPair u b).rtake 20 := by
  by_cases hc : extractOutput b ≠ "" ∧ extractOutput b ≠ SENTINEL
  · simp only [chat, recordedPair, if_pos hc]
    rw [truncate_eq_rtake]
  · simp only [chat, recordedPair, if_neg hc]
    rw [truncate_eq_rtake, List.append_nil]

theorem runChatCalls_from (calls : List (String × InvokeBehavior)) :
    ∀ R : List (String × String),
      calls.foldl (fun h c => (chat c.1 c.2 h).newHistory) (List.rtake R 20)
        = (R ++ recordedTurns calls).rtake 20 := by
  induction calls with
  | nil => intro R; simp [recordedTurns]
  | cons c rest ih =>
    intro R
    rw [List.foldl_cons, chat_newHistory_eq, rtake_append_rtake, ih (R ++ recordedPair c.1 c.2)]
    rw [recordedTurns, List.append_assoc]

end Bootcamp

namespace Bootcamp

/-! ### The claims -/

/-- C1.  The stored history retains at most the 20 most recent turns: after
any sequence of chat calls, the module-global history equals the last 20 of
all recorded turns (so oldest recorded turns are discarded from the front),
it never exceeds 20 entries, and it is a suffix of the recorded turns in
their original relative order. -/
theorem spec_c1 (calls : List (String × InvokeBehavior)) :
    runChatCalls calls = (recordedTurns calls).rtake 20
    ∧ (runChatCalls calls).length ≤ 20
    ∧ runChatCalls calls <:+ recordedTurns calls := by
  have h0 : runChatCalls calls = (recordedTurns calls).rtake 20 := by
    have h := runChatCalls_from calls []
    simpa [runChatCalls] using h
  refine ⟨h0, ?_, ?_⟩
  · rw [h0]; exact length_rtake_le _ _
  · rw [h0]; exact rtake_suffix _ _

theorem rtake_append_suffix {α : Type} (l p : List α) (n : Nat) (h : p.length ≤ n) :
    p <:+ (l ++ p).rtake n := by
  unfold List.rtake
  rw [List.length_append, List.drop_append_eq_append_drop]
  have h0 : l.length + p.length - n - l.length = 0 := by omega
  rw [h0, List.drop_zero]
  exact List.suffix_append _ _

/-- C3.  The user turn and the assistant turn are appended to the stored
history exactly when the produced reply is a non-empty string different
from the sentinel `"No response generated"` (the literal of agent.py line
231); otherwise the stored history is left unchanged.  The hypothesis
`hist.length ≤ 20` is the reachability invariant maintained by the cap
(spec_c1); the reply is always a string in the code because lines 211-225
coerce every other shape to a fixed string first. -/
theorem spec_c3 (user : String) (beh : InvokeBehavior) (hist : List (String × String))
    (hlen : hist.length ≤ 20) :
    (((chat user beh hist).output ≠ "" ∧ (chat user beh hist).output ≠ SENTINEL) →
      (chat user beh hist).newHistory
          = (hist ++ [("human", user), ("assistant", (chat user beh hist).output)]).rtake 20
        ∧ [("human", user), ("assistant", (chat user beh hist).output)]
            <:+ (chat user beh hist).newHistory)
    ∧ (((chat user beh hist).output = "" ∨ (chat user beh hist).output = SENTINEL) →
      (chat user beh hist).newHistory = hist) := by
  rw [chat_output_eq, chat_newHistory_eq]
  by_cases hs : extractOutput beh = SENTINEL
  · have hguard : ¬ (extractOutput beh ≠ "" ∧ extractOutput beh ≠ SENTINEL) := by
      intro hg; exact hg.2 hs
    constructor
    · intro hg; exact absurd hg hguard
    · intro _
      rw [recordedPair, if_neg hguard, List.append_nil]
      exact rtake_of_length_le hist 20 hlen
  · have hguard : extractOutput beh ≠ "" ∧ extractOutput beh ≠ SENTINEL :=
      ⟨extractOutput_ne beh, hs⟩
    constructor
    · intro _
      rw [recordedPair, if_pos hguard]
      exact ⟨rfl, rtake_append_suffix _ _ _ (by simp)⟩
    · intro hg
      rcases hg with hg | hg
      · exact absurd hg (extractOutput_ne beh)
      · exact absurd hg hs

/-- Witness for spec_c3 at a concrete input. -/
theorem spec_c3_witness :
    ([] : List (String × String)).length ≤ 20
    ∧ ((((chat "hi" InvokeBehavior.retNone []).output ≠ ""
          ∧ (chat "hi" InvokeBehavior.retNone []).output ≠ SENTINEL) →
        (chat "hi" InvokeBehavior.retNone []).newHistory
            = (([] : List (String × String))
                ++ [("human", "hi"), ("assistant", (chat "hi" InvokeBehavior.retNone []).output)]).rtake 20
          ∧ [("human", "hi"), ("assistant", (chat "hi" InvokeBehavior.retNone []).output)]
              <:+ (chat "hi" InvokeBehavior.retNone []).newHistory)
      ∧ (((chat "hi" InvokeBehavior.retNone []).output = ""
            ∨ (chat "hi" InvokeBehavior.retNone []).output = SENTINEL) →
        (chat "hi" InvokeBehavior.retNone []).newHistory = [])) :=
  ⟨by decide, spec_c3 "hi" InvokeBehavior.retNone [] (by decide)⟩

/-- C4, counterexample.  The text returned when the external call raises is
not one fixed string: it interpolates `str(e)` (agent.py line 228), so two
different exception messages yield two different replies. -/
theorem spec_c4_counterexample :
    ¬ ∃ c : String, ∀ msg : String, (chat "hi" (InvokeBehavior.raises msg) []).output = c := by
  intro hex
  obtain ⟨c, hc⟩ := hex
  have h1 := hc "a"
  have h2 := hc "b"
  have hne : (chat "hi" (InvokeBehavior.raises "a") []).output
      ≠ (chat "hi" (InvokeBehavior.raises "b") []).output := by decide
  exact hne (h1.trans h2.symm)

/-- C4, amended.  For every input and every behavior of the external call
the chat handler returns a (non-empty) string and never raises past its own
boundary (the embedded `chat` is total); when the external call raises, the
returned string is the apologetic text built from a fixed template with the
exception's message interpolated, and the failure is not propagated. -/
theorem spec_c4_amended (user : String) (hist : List (String × String)) :
    (∀ beh : InvokeBehavior, (chat user beh hist).output ≠ "")
    ∧ ∀ msg : String,
        (chat user (InvokeBehavior.raises msg) hist).output
          = "I encountered an error: " ++ msg ++ ". Could you please rephrase your question?" := by
  constructor
  · intro beh
    rw [chat_output_eq]
    exact extractOutput_ne beh
  · intro msg
    rw [chat_output_eq]
    rfl

theorem digitChar_isDigit (n : Nat) : (digitChar n).isDigit = true := by
  unfold digitChar
  have h : n % 10 < 10 := Nat.mod_lt _ (by norm_num)
  generalize n % 10 = m at h
  interval_cases m <;> decide

theorem matchesClockPattern_strftime (dt : PyDateTime) :
    matchesClockPattern (strftimeClock dt) = true := by
  simp only [strftimeClock, pad4, pad2, List.cons_append, List.nil_append]
  simp [matchesClockPattern, digitChar_isDigit]

/-- C9.  The clock tool returns a string of the literal shape
`YYYY-MM-DD HH:MM:SS (IST)` both when the zone lookup succeeds and on the
UTC+5:30 offset fallback taken when the zoneinfo module is unavailable; and
when the body raises (for example the zone database lookup failing), it
returns a textual description of the failure rather than raising. -/
theorem spec_c9 (dt fb : PyDateTime) :
    matchesClockPattern (get_current_datetime (ZoneInfoStatus.available (ZoneLookup.ok dt)) fb)
        = true
    ∧ matchesClockPattern (get_current_datetime ZoneInfoStatus.unavailable fb) = true
    ∧ ∀ msg : String,
        get_current_datetime (ZoneInfoStatus.available (ZoneLookup.raises msg)) fb
          = "Error getting current time: " ++ msg :=
  ⟨matchesClockPattern_strftime dt, matchesClockPattern_strftime fb, fun _ => rfl⟩

/-- C8.  The weather tool formats the Mumbai payload to exactly the
expected sentence; on a non-2xx status it returns the could-not-fetch text
(the code in fact requires status 200 exactly), and on a raised exception
it returns the error text; it never raises (the embedded function is
total). -/
theorem spec_c8 :
    (get_weather "Mumbai"
        (ProviderResult.responds 200 (WeatherBody.wellFormed ⟨"Sunny", "30", "33", "40"⟩))
      = "Weather in Mumbai: Sunny, Temperature: 30°C (feels like 33°C), Humidity: 40%")
    ∧ (∀ (city : String) (status : Nat) (body : WeatherBody),
        ¬ (200 ≤ status ∧ status < 300) →
          get_weather city (ProviderResult.responds status body)
            = "Could not fetch weather for " ++ city)
    ∧ ∀ city msg : String,
        get_weather city (ProviderResult.raises msg) = "Error getting weather: " ++ msg := by
  refine ⟨by decide, ?_, fun city msg => rfl⟩
  intro city status body h
  have hs : status ≠ 200 := by omega
  simp [get_weather, hs]

/-- Witness for spec_c8 at a concrete non-2xx status. -/
theorem spec_c8_witness :
    (¬ (200 ≤ 404 ∧ 404 < 300))
    ∧ get_weather "Pune" (ProviderResult.responds 404 (WeatherBody.malformed "x"))
        = "Could not fetch weather for " ++ "Pune" :=
  ⟨by omega, spec_c8.2.1 "Pune" 404 (WeatherBody.malformed "x") (by omega)⟩

theorem pyStrip_of_all (s : String) (h : s.data.all isPyWhitespace = true) : pyStrip s = "" := by
  unfold pyStrip
  have h1 : s.data.dropWhile isPyWhitespace = [] := by
    rw [List.dropWhile_eq_nil_iff]
    intro x hx
    exact List.all_eq_true.mp h x hx
  rw [h1]
  rfl

/-- C10.  An empty or whitespace-only input line is skipped by the console
loop (agent.py lines 290-296) and rejected by the UI submit guard (app.py
line 159): no stored turn is produced and the chat handler — hence the
external call — is not invoked. -/
theorem spec_c10 (raw : String) (hws : raw.data.all isPyWhitespace = true) :
    pyStrip raw = ""
    ∧ consoleStep raw = ConsoleAction.skip
    ∧ (∀ (beh : InvokeBehavior) (hist : List (String × String)),
        consoleEffect (consoleStep raw) beh hist = (hist, false))
    ∧ ∀ (submit : Bool) (beh : InvokeBehavior) (msgs : List UiMsg)
        (hist : List (String × String)),
        uiStep submit raw beh msgs hist = (msgs, hist, false) := by
  have hp : pyStrip raw = "" := pyStrip_of_all raw hws
  have hcs : consoleStep raw = ConsoleAction.skip := by
    simp [consoleStep, hp]
  refine ⟨hp, hcs, ?_, ?_⟩
  · intro beh hist
    rw [hcs]
    rfl
  · intro submit beh msgs hist
    have hng : ¬ (submit ∧ raw ≠ "" ∧ pyStrip raw ≠ "") := by
      intro hg
      exact hg.2.2 hp
    simp only [uiStep, if_neg hng]

/-- Witness for spec_c10 at a concrete whitespace-only line. -/
theorem spec_c10_witness :
    (" \t ".data.all isPyWhitespace = true)
    ∧ (pyStrip " \t " = ""
      ∧ consoleStep " \t " = ConsoleAction.skip
      ∧ (∀ (beh : InvokeBehavior) (hist : List (String × String)),
          consoleEffect (consoleStep " \t ") beh hist = (hist, false))
      ∧ ∀ (submit : Bool) (beh : InvokeBehavior) (msgs : List UiMsg)
          (hist : List (String × String)),
          uiStep submit " \t " beh msgs hist = (msgs, hist, false)) :=
  ⟨by decide, spec_c10 " \t " (by decide)⟩

theorem storeLookup_append_self (store : SessionStore) (key : String) (v : Session)
    (h : storeLookup store key = none) :
    storeLookup (store ++ [(key, v)]) key = some v := by
  induction store with
  | nil => simp [storeLookup]
  | cons kv rest ih =>
    obtain ⟨k, w⟩ := kv
    by_cases hk : k = key
    · rw [storeLookup, if_pos hk] at h
      exact absurd h (by simp)
    · rw [storeLookup, if_neg hk] at h
      rw [List.cons_append, storeLookup, if_neg hk]
      exact ih h

/-- C6.  `get_or_create_session` is total (never fails); calling it twice
with the same key gives back the stored session again and leaves the store
unchanged; and for an unseen key it creates, stores and returns the empty
session. -/
theorem spec_c6 (store : SessionStore) (key : String) :
    ((get_or_create_session (get_or_create_session store key).2 key).1
        = (get_or_create_session store key).1
      ∧ (get_or_create_session (get_or_create_session store key).2 key).2
        = (get_or_create_session store key).2)
    ∧ (storeLookup store key = none →
      (get_or_create_session store key).1 = []
      ∧ storeLookup (get_or_create_session store key).2 key = some []) := by
  cases h : storeLookup store key with
  | some s =>
    constructor
    · simp [get_or_create_session, h]
    · intro hn
      exact absurd hn (by simp)
  | none =>
    have h2 : storeLookup (store ++ [(key, [])]) key = some [] :=
      storeLookup_append_self store key [] h
    constructor
    · simp [get_or_create_session, h, h2]
    · intro _
      simp [get_or_create_session, h, h2]

/-- Witness for spec_c6 at a concrete unseen key. -/
theorem spec_c6_witness :
    (get_or_create_session ([] : SessionStore) "k").1 = []
    ∧ storeLookup (get_or_create_session ([] : SessionStore) "k").2 "k" = some [] :=
  (spec_c6 [] "k").2 (by decide)

/-- C7.  For every parsed request the endpoint answers with a normal
(status 200) envelope carrying the resolved session id — it never returns
the 500 path, which api.py reserves for a failure of envelope resolution
itself — and when the inner processing fails, the envelope's response is
the fixed apology. -/
theorem spec_c7 (st : ApiState) (req : ChatRequest) (ib : InnerBehavior) :
    (∃ resp : String,
        (chat_endpoint st req ib).http = HttpResult.ok resp (resolveSessionId st req))
    ∧ ∀ msg : String, ib = InnerBehavior.raisesInner msg →
        (chat_endpoint st req ib).http
          = HttpResult.ok APOLOGY (resolveSessionId st req) := by
  cases ib with
  | normal beh =>
    constructor
    · exact ⟨(chat req.message beh st.globalHistory).output, rfl⟩
    · intro msg hmsg
      exact absurd hmsg (by simp)
  | raisesInner m =>
    exact ⟨⟨APOLOGY, rfl⟩, fun msg hmsg => rfl⟩

/-- Witness for spec_c7 at a concrete failing request. -/
theorem spec_c7_witness :
    (chat_endpoint ⟨[], [], 0⟩ ⟨"hello", none⟩ (InnerBehavior.raisesInner "boom")).http
      = HttpResult.ok APOLOGY (resolveSessionId ⟨[], [], 0⟩ ⟨"hello", none⟩) :=
  (spec_c7 ⟨[], [], 0⟩ ⟨"hello", none⟩ (InnerBehavior.raisesInner "boom")).2 "boom" rfl

theorem serializedHistory_eq_nil (s : Session) : serializedHistory s = [] := by
  induction s with
  | nil => rfl
  | cons a rest _ =>
    simp [serializedHistory, memoryMessages]

theorem chat_endpoint_normal (st : ApiState) (req : ChatRequest) (beh : InvokeBehavior) :
    chat_endpoint st req (InnerBehavior.normal beh)
      = ⟨HttpResult.ok (chat req.message beh st.globalHistory).output (resolveSessionId st req),
         ⟨(chat req.message beh st.globalHistory).newHistory,
          (get_or_create_session st.sessionStorage (resolveSessionId st req)).2,
          if wantsFresh req then st.uuidCounter + 1 else st.uuidCounter⟩,
         some (formatHistory st.globalHistory)⟩ := by
  simp [chat_endpoint, serializedHistory_eq_nil, chat_modelInput_eq]

/-- C5.  The history handed to the external call by the endpoint is always
the formatting of the module-global `chat_history` of agent.py — the
per-session storage of api.py is never fed into the model input — and the
mutation of that global history depends only on it and the message, so
requests with different session ids and different session stores read and
mutate one shared history. -/
theorem spec_c5 (st : ApiState) (req : ChatRequest) (beh : InvokeBehavior) :
    ((chat_endpoint st req (InnerBehavior.normal beh)).invokedHistory
        = some (formatHistory st.globalHistory))
    ∧ ((chat_endpoint st req (InnerBehavior.normal beh)).state.globalHistory
        = (chat req.message beh st.globalHistory).newHistory)
    ∧ ∀ (st2 : ApiState) (req2 : ChatRequest),
        st2.globalHistory = st.globalHistory → req2.message = req.message →
          (chat_endpoint st2 req2 (InnerBehavior.normal beh)).invokedHistory
              = (chat_endpoint st req (InnerBehavior.normal beh)).invokedHistory
            ∧ (chat_endpoint st2 req2 (InnerBehavior.normal beh)).state.globalHistory
              = (chat_endpoint st req (InnerBehavior.normal beh)).state.globalHistory := by
  rw [chat_endpoint_normal st req beh]
  refine ⟨rfl, rfl, ?_⟩
  intro st2 req2 hg hm
  rw [chat_endpoint_normal st2 req2 beh]
  constructor
  · simp [hg]
  · simp [hg, hm]

/-- Witness for spec_c5: two states with the same global history but
different session stores, counters, and session ids. -/
theorem spec_c5_witness :
    (chat_endpoint ⟨[("human", "a")], [("k", [("human", "z")])], 7⟩ ⟨"m", some "sid"⟩
          (InnerBehavior.normal InvokeBehavior.retNone)).invokedHistory
        = (chat_endpoint ⟨[("human", "a")], [], 0⟩ ⟨"m", none⟩
            (InnerBehavior.normal InvokeBehavior.retNone)).invokedHistory
    ∧ (chat_endpoint ⟨[("human", "a")], [("k", [("human", "z")])], 7⟩ ⟨"m", some "sid"⟩
          (InnerBehavior.normal InvokeBehavior.retNone)).state.globalHistory
        = (chat_endpoint ⟨[("human", "a")], [], 0⟩ ⟨"m", none⟩
            (InnerBehavior.normal InvokeBehavior.retNone)).state.globalHistory :=
  (spec_c5 ⟨[("human", "a")], [], 0⟩ ⟨"m", none⟩ InvokeBehavior.retNone).2.2
    ⟨[("human", "a")], [("k", [("human", "z")])], 7⟩ ⟨"m", some "sid"⟩ rfl rfl

theorem genSessionId_ne_empty (n : Nat) : genSessionId n ≠ "" := by
  unfold genSessionId
  intro h
  exact List.cons_ne_nil _ _ (congrArg String.data h)

theorem genSessionId_inj {m n : Nat} (h : genSessionId m = genSessionId n) : m = n := by
  unfold genSessionId at h
  have h2 : 's' :: List.replicate m 's' = 's' :: List.replicate n 's' :=
    congrArg String.data h
  have h3 := congrArg List.length h2
  simpa using h3

theorem chat_endpoint_counter (st : ApiState) (req : ChatRequest) (ib : InnerBehavior) :
    (chat_endpoint st req ib).state.uuidCounter
      = if wantsFresh req then st.uuidCounter + 1 else st.uuidCounter := by
  cases ib <;> rfl

theorem chat_endpoint_counter_le (st : ApiState) (req : ChatRequest) (ib : InnerBehavior) :
    st.uuidCounter ≤ (chat_endpoint st req ib).state.uuidCounter := by
  rw [chat_endpoint_counter]
  split <;> omega

theorem mem_genIdsRun (reqs : List (ChatRequest × InnerBehavior)) :
    ∀ (st : ApiState) (x : String), x ∈ genIdsRun st reqs →
      ∃ k, st.uuidCounter ≤ k ∧ x = genSessionId k := by
  induction reqs with
  | nil =>
    intro st x hx
    simp [genIdsRun] at hx
  | cons head rest ih =>
    intro st x hx
    obtain ⟨req, ib⟩ := head
    simp only [genIdsRun] at hx
    rcases List.mem_append.mp hx with hx | hx
    · by_cases hw : wantsFresh req = true
      · rw [if_pos hw] at hx
        simp at hx
        exact ⟨st.uuidCounter, le_refl _, hx⟩
      · rw [if_neg hw] at hx
        simp at hx
    · obtain ⟨k, hk, hxe⟩ := ih (chat_endpoint st req ib).state x hx
      exact ⟨k, le_trans (chat_endpoint_counter_le st req ib) hk, hxe⟩

theorem pairwise_genIdsRun (reqs : List (ChatRequest × InnerBehavior)) :
    ∀ st : ApiState, (genIdsRun st reqs).Pairwise (fun a b => a ≠ b) := by
  induction reqs with
  | nil =>
    intro st
    simp [genIdsRun]
  | cons head rest ih =>
    intro st
    obtain ⟨req, ib⟩ := head
    simp only [genIdsRun]
    by_cases hw : wantsFresh req = true
    · rw [if_pos hw, List.singleton_append]
      refine List.Pairwise.cons ?_ (ih _)
      intro y hy
      obtain ⟨k, hk, rfl⟩ := mem_genIdsRun rest _ y hy
      rw [chat_endpoint_counter, if_pos hw] at hk
      intro heq
      have hkc := genSessionId_inj heq
      omega
    · rw [if_neg hw, List.nil_append]
      exact ih _

theorem resolveSessionId_some (st : ApiState) (m s : String) (h : s ≠ "") :
    resolveSessionId st ⟨m, some s⟩ = s := by
  simp [resolveSessionId, h]

theorem storeLookup_goc (store : SessionStore) (key : String) :
    storeLookup (get_or_create_session store key).2 key
      = some (get_or_create_session store key).1 := by
  cases h : storeLookup store key with
  | some s => simp [get_or_create_session, h]
  | none => simp [get_or_create_session, h, storeLookup_append_self store key [] h]

theorem goc_of_found (store : SessionStore) (key : String) (s : Session)
    (h : storeLookup store key = some s) :
    (get_or_create_session store key).2 = store := by
  simp [get_or_create_session, h]

theorem formatHistory_append (l1 l2 : List (String × String)) :
    formatHistory (l1 ++ l2) = formatHistory l1 ++ formatHistory l2 := by
  simp [formatHistory, List.filterMap_append]

theorem formatHistory_suffix {l1 l2 : List (String × String)} (h : l1 <:+ l2) :
    formatHistory l1 <:+ formatHistory l2 := by
  obtain ⟨t, rfl⟩ := h
  exact ⟨formatHistory t, (formatHistory_append t l1).symm⟩

theorem formatHistory_pair (m o : String) (ho : o ≠ "") :
    formatHistory [("human", m), ("assistant", o)] = [Msg.human m, Msg.ai o] := by
  simp [formatHistory, ho]

/-- C2.  Every `POST /chat` without a session id answers with a freshly
drawn session id: over any run, the generated ids are pairwise distinct and
non-empty.  And a second request presenting the id returned by a first
id-less request resolves to that same id, finds the session stored by the
first request (reusing it, leaving the store unchanged), and the history it
replays to the external call contains the first turn's (user, assistant)
exchange. -/
theorem spec_c2 :
    (∀ (st : ApiState) (reqs : List (ChatRequest × InnerBehavior)),
        (genIdsRun st reqs).Pairwise (fun a b => a ≠ b)
        ∧ ∀ x ∈ genIdsRun st reqs, x ≠ "")
    ∧ ∀ (st : ApiState) (m1 m2 : String) (beh1 beh2 : InvokeBehavior),
        extractOutput beh1 ≠ SENTINEL →
          ((chat_endpoint st ⟨m1, none⟩ (InnerBehavior.normal beh1)).http
              = HttpResult.ok (chat m1 beh1 st.globalHistory).output
                  (genSessionId st.uuidCounter)
            ∧ genSessionId st.uuidCounter ≠ ""
            ∧ resolveSessionId (chat_endpoint st ⟨m1, none⟩ (InnerBehavior.normal beh1)).state
                  ⟨m2, some (genSessionId st.uuidCounter)⟩
                = genSessionId st.uuidCounter
            ∧ (∃ s, storeLookup
                  (chat_endpoint st ⟨m1, none⟩ (InnerBehavior.normal beh1)).state.sessionStorage
                  (genSessionId st.uuidCounter) = some s)
            ∧ (chat_endpoint (chat_endpoint st ⟨m1, none⟩ (InnerBehavior.normal beh1)).state
                  ⟨m2, some (genSessionId st.uuidCounter)⟩
                  (InnerBehavior.normal beh2)).state.sessionStorage
                = (chat_endpoint st ⟨m1, none⟩ (InnerBehavior.normal beh1)).state.sessionStorage
            ∧ ∃ h, (chat_endpoint (chat_endpoint st ⟨m1, none⟩ (InnerBehavior.normal beh1)).state
                  ⟨m2, some (genSessionId st.uuidCounter)⟩
                  (InnerBehavior.normal beh2)).invokedHistory
                = some h
              ∧ [Msg.human m1, Msg.ai (extractOutput beh1)] <:+ h) := by
  constructor
  · intro st reqs
    refine ⟨pairwise_genIdsRun reqs st, ?_⟩
    intro x hx
    obtain ⟨k, _, rfl⟩ := mem_genIdsRun reqs st x hx
    exact genSessionId_ne_empty k
  · intro st m1 m2 beh1 beh2 hout
    have hres1 : resolveSessionId st ⟨m1, none⟩ = genSessionId st.uuidCounter := rfl
    have hne : genSessionId st.uuidCounter ≠ "" := genSessionId_ne_empty st.uuidCounter
    have e1 := chat_endpoint_normal st ⟨m1, none⟩ beh1
    rw [hres1] at e1
    have hres2 : resolveSessionId (chat_endpoint st ⟨m1, none⟩ (InnerBehavior.normal beh1)).state
        ⟨m2, some (genSessionId st.uuidCounter)⟩ = genSessionId st.uuidCounter :=
      resolveSessionId_some _ m2 _ hne
    have hlk : storeLookup
        (chat_endpoint st ⟨m1, none⟩ (InnerBehavior.normal beh1)).state.sessionStorage
        (genSessionId st.uuidCounter)
        = some (get_or_create_session st.sessionStorage (genSessionId st.uuidCounter)).1 := by
      rw [e1]
      exact storeLookup_goc st.sessionStorage (genSessionId st.uuidCounter)
    have e2 := chat_endpoint_normal
      (chat_endpoint st ⟨m1, none⟩ (InnerBehavior.normal beh1)).state
      ⟨m2, some (genSessionId st.uuidCounter)⟩ beh2
    rw [hres2] at e2
    refine ⟨by rw [e1], hne, hres2, ⟨_, hlk⟩, ?_, ?_⟩
    · rw [e2]
      show (get_or_create_session _ _).2 = _
      exact goc_of_found _ _ _ hlk
    · refine ⟨formatHistory
        (chat_endpoint st ⟨m1, none⟩ (InnerBehavior.normal beh1)).state.globalHistory,
        by rw [e2], ?_⟩
      have hglob : (chat_endpoint st ⟨m1, none⟩ (InnerBehavior.normal beh1)).state.globalHistory
          = (st.globalHistory
              ++ [("human", m1), ("assistant", extractOutput beh1)]).rtake 20 := by
        rw [e1]
        show (chat m1 beh1 st.globalHistory).newHistory = _
        rw [chat_newHistory_eq, recordedPair, if_pos ⟨extractOutput_ne beh1, hout⟩]
      rw [hglob]
      rw [← formatHistory_pair m1 (extractOutput beh1) (extractOutput_ne beh1)]
      exact formatHistory_suffix
        (rtake_append_suffix st.globalHistory _ 20 (by simp))

/-- Witness for spec_c2's second part at concrete inputs. -/
theorem spec_c2_witness :
    extractOutput InvokeBehavior.retNone ≠ SENTINEL
    ∧ ((chat_endpoint ⟨[], [], 0⟩ ⟨"hello", none⟩
            (InnerBehavior.normal InvokeBehavior.retNone)).http
          = HttpResult.ok (chat "hello" InvokeBehavior.retNone ([] : List (String × String))).output
              (genSessionId 0)
        ∧ genSessionId 0 ≠ ""
        ∧ resolveSessionId (chat_endpoint ⟨[], [], 0⟩ ⟨"hello", none⟩
              (InnerBehavior.normal InvokeBehavior.retNone)).state
              ⟨"again", some (genSessionId 0)⟩
            = genSessionId 0
        ∧ (∃ s, storeLookup
              (chat_endpoint ⟨[], [], 0⟩ ⟨"hello", none⟩
                (InnerBehavior.normal InvokeBehavior.retNone)).state.sessionStorage
              (genSessionId 0) = some s)
        ∧ (chat_endpoint (chat_endpoint ⟨[], [], 0⟩ ⟨"hello", none⟩
              (InnerBehavior.normal InvokeBehavior.retNone)).state
              ⟨"again", some (genSessionId 0)⟩
              (InnerBehavior.normal InvokeBehavior.retNone)).state.sessionStorage
            = (chat_endpoint ⟨[], [], 0⟩ ⟨"hello", none⟩
                (InnerBehavior.normal InvokeBehavior.retNone)).state.sessionStorage
        ∧ ∃ h, (chat_endpoint (chat_endpoint ⟨[], [], 0⟩ ⟨"hello", none⟩
              (InnerBehavior.normal InvokeBehavior.retNone)).state
              ⟨"again", some (genSessionId 0)⟩
              (InnerBehavior.normal InvokeBehavior.retNone)).invokedHistory
            = some h
          ∧ [Msg.human "hello", Msg.ai (extractOutput InvokeBehavior.retNone)] <:+ h) :=
  ⟨by decide, spec_c2.2 ⟨[], [], 0⟩ "hello" "again" InvokeBehavior.retNone
    InvokeBehavior.retNone (by decide)⟩

end Bootcamp
